import Mathlib

/-!
Shallow embedding of the WatchAlert ElasticSearch log-data-source adapter
(`pkg/provider/logs_elasticsearch.go`): query translation (raw-JSON and
field-filter modes), result normalization, and the health probe `Check`.
The network round trips are abstracted as explicit parameters (the backend
hit list for `Query`, the HTTP transport result for `Check`); everything on
this side of the wire is translated from the Go source.
-/

/-- Outcome of a Go call in the embedding: a returned value, a returned
`error`, or a run-time panic (which in Go is a fault, not a returned error). -/
inductive Outcome (α : Type) where
  | ok (val : α)
  | err (msg : String)
  | panics (msg : String)
deriving Repr

/-- True exactly on the `panics` outcome. -/
def Outcome.isFault {α : Type} : Outcome α → Bool
  | .panics _ => true
  | _ => false

/-- True exactly on the `ok` outcome. -/
def Outcome.isOk {α : Type} : Outcome α → Bool
  | .ok _ => true
  | _ => false

/-- A Go `interface{}` value as far as this adapter inspects one: either a
string or some non-string value.  `LogQueryOptions.StartAt`/`EndAt` have this
type in the source, and `Query` applies the type assertion `.(string)` to
them, which panics on a non-string. -/
inductive GoValue where
  | str (s : String)
  | other
deriving Repr, DecidableEq

/-- One entry of `QueryFilter`: a field name and the value to match.  The
source carries `Value` as `interface{}` and only ever renders it with `%v`;
the embedding carries that rendering. -/
structure QueryFilterItem where
  Field : String
  Value : String
deriving Repr, DecidableEq

/-- Modelled from the spec: the constant `models.EsQueryTypeRawJson` lives in
`internal/models`, which is not part of the visible source; the spec calls
this query mode `RawPayload`. -/
def EsQueryTypeRawJson : String := "RawPayload"

/-- Modelled from the spec: the constant `models.EsQueryTypeField`
(spec name `FieldFilter`), from the `internal/models` package not in the
visible source. -/
def EsQueryTypeField : String := "FieldFilter"

/-- Modelled from the spec: `models.EsFilterConditionOr`, one of the closed
combinator enumeration {And, Or, Not}. -/
def EsFilterConditionOr : String := "Or"

/-- Modelled from the spec: `models.EsFilterConditionAnd`. -/
def EsFilterConditionAnd : String := "And"

/-- Modelled from the spec: `models.EsFilterConditionNot`. -/
def EsFilterConditionNot : String := "Not"

/-- The ElasticSearch part of `LogQueryOptions` as the adapter reads it:
query mode, raw payload, field filters, wildcard mode (a Go `int`:
0 = exact, 1 = substring), combinator, and the externally resolved index
name (the spec's `IndexName`, returned by `GetIndexName`). -/
structure ElasticSearchOptions where
  QueryType : String
  RawJson : String
  QueryFilter : List QueryFilterItem
  QueryWildcard : Int
  QueryFilterCondition : String
  IndexName : String
deriving Repr

/-- Modelled from the spec: `GetIndexName` resolves the target index
identifier externally; the embedding stores the resolved name. -/
def ElasticSearchOptions.GetIndexName (o : ElasticSearchOptions) : String :=
  o.IndexName

/-- The query model `LogQueryOptions` as the adapter reads it. `StartAt` and
`EndAt` are `interface{}` in the source (the adapter asserts them to
`string`). -/
structure LogQueryOptions where
  ElasticSearch : ElasticSearchOptions
  StartAt : GoValue
  EndAt : GoValue
deriving Repr

/-- The backend-native query the translator produces, mirroring the
`olivere/elastic` query constructors the source uses: raw-string query,
match query, wildcard query, timestamp range query, and bool query with
must / should / must-not clause lists and an optional
minimum-number-should-match threshold. -/
inductive EsQuery where
  | rawStringQuery (s : String)
  | matchQuery (field value : String)
  | wildcardQuery (field pattern : String)
  | rangeQuery (field gte lte : String)
  | boolq (must should mustNot : List EsQuery) (minShouldMatch : Option Nat)
deriving Repr

/-- True on the per-filter leaf clauses (`matchQuery` / `wildcardQuery`)
that the filter loop can produce. -/
def EsQuery.isLeafFilter : EsQuery → Bool
  | .matchQuery _ _ => true
  | .wildcardQuery _ _ => true
  | _ => false

/-- The per-filter clause builder: the inner `switch options.ElasticSearch.
QueryWildcard` of the source. Mode 0 builds an exact match clause, mode 1 a
wildcard clause with the value wrapped as `*Value*`, anything else returns
the error `undefined QueryWildcard`. -/
def buildFilterQuery (wildcard : Int) (filter : QueryFilterItem) : Outcome EsQuery :=
  if wildcard = 0 then .ok (.matchQuery filter.Field filter.Value)
  else if wildcard = 1 then
    .ok (.wildcardQuery filter.Field ("*" ++ filter.Value ++ "*"))
  else .err "undefined QueryWildcard"

/-- The filter loop of the source: builds one clause per filter in order,
returning the first error (the loop returns early on an undefined wildcard
mode). -/
def buildSubQueries (wildcard : Int) : List QueryFilterItem → Outcome (List EsQuery)
  | [] => .ok []
  | f :: rest =>
    match buildFilterQuery wildcard f with
    | .ok q =>
      match buildSubQueries wildcard rest with
      | .ok qs => .ok (q :: qs)
      | .err m => .err m
      | .panics m => .panics m
    | .err m => .err m
    | .panics m => .panics m

/-- The combinator step of the field-filter branch: if `QueryFilter` is
non-empty, build the sub-queries and distribute them onto the bool query's
should / must / must-not lists according to `QueryFilterCondition`
(Or sets minimum-should-match 1); on an empty filter list the whole step is
skipped and the bool query stays empty. Returns the
(must, should, mustNot, minShouldMatch) state of `conditionQuery` just
before the range clause is appended. -/
def esFieldGroup (es : ElasticSearchOptions) :
    Outcome (List EsQuery × List EsQuery × List EsQuery × Option Nat) :=
  if 0 < es.QueryFilter.length then
    match buildSubQueries es.QueryWildcard es.QueryFilter with
    | .err m => .err m
    | .panics m => .panics m
    | .ok subQueries =>
      if es.QueryFilterCondition = EsFilterConditionOr then
        .ok ([], subQueries, [], some 1)
      else if es.QueryFilterCondition = EsFilterConditionAnd then
        .ok (subQueries, [], [], none)
      else if es.QueryFilterCondition = EsFilterConditionNot then
        .ok ([], [], subQueries, none)
      else .err "undefined QueryFilterCondition"
  else .ok ([], [], [], none)

/-- The query-translation phase of `Query` (everything before the network
call): dispatch on `QueryType`; raw mode rejects an empty payload and wraps
the text unmodified; field mode runs the combinator step, then appends the
`@timestamp` range clause to the must list — via the type assertions
`options.StartAt.(string)` and `options.EndAt.(string)`, which panic when
the value is not a string (StartAt is asserted first); any other
`QueryType` fails naming the offending value. -/
def esTranslate (options : LogQueryOptions) : Outcome EsQuery :=
  if options.ElasticSearch.QueryType = EsQueryTypeRawJson then
    if options.ElasticSearch.RawJson = "" then .err "RawJson 为空"
    else .ok (.rawStringQuery options.ElasticSearch.RawJson)
  else if options.ElasticSearch.QueryType = EsQueryTypeField then
    match esFieldGroup options.ElasticSearch with
    | .err m => .err m
    | .panics m => .panics m
    | .ok (must, should, mustNot, mm) =>
      match options.StartAt with
      | .other => .panics "interface conversion: StartAt is not a string"
      | .str sa =>
        match options.EndAt with
        | .other => .panics "interface conversion: EndAt is not a string"
        | .str ea =>
          .ok (.boolq (must ++ [.rangeQuery "@timestamp" sa ea]) should mustNot mm)
  else .err ("undefined QueryType, type: " ++ options.ElasticSearch.QueryType)

/-- One backend hit as the normalizer sees it: backend metadata plus the
`_source` document (the unmarshal into `esQueryResponse` keeps only
`_source`; a document is a generic key/value mapping). -/
structure EsHit where
  id : String
  source : List (String × String)
deriving Repr

/-- The normalized log batch `Logs`. -/
structure Logs where
  ProviderName : String
  Metric : List (String × String)
  Message : List (List (String × String))
deriving Repr

/-- Modelled from the spec: the constant `ElasticSearchDsProviderName`
identifying the backend kind, declared elsewhere in the provider package. -/
def ElasticSearchDsProviderName : String := "ElasticSearch"

/-- Modelled from the spec: `commonKeyValuePairs` reduces the document set
to a compact key/value fingerprint; the spec leaves the exact policy open
and suggests keeping the pairs common to all documents, which this model
does. No claim depends on its output. -/
def commonKeyValuePairs (msgs : List (List (String × String))) : List (String × String) :=
  match msgs with
  | [] => []
  | m :: rest => m.filter (fun kv => rest.all (fun d => d.contains kv))

/-- The adapter instance: connection configuration captured at
construction (`NewElasticSearchClient`); the backend client itself is
abstracted by the explicit network parameters of `Query` and `Check`. -/
structure ElasticSearchDsProvider where
  url : String
  username : String
  password : String
  ExternalLabels : List (String × String)
deriving Repr

/-- `GetExternalLabels` passes the configured labels through unchanged. -/
def ElasticSearchDsProvider.GetExternalLabels (e : ElasticSearchDsProvider) :
    List (String × String) :=
  e.ExternalLabels

/-- `Query`: translate the options, issue the search (abstracted by `net`,
the transport outcome carrying the backend hits), then normalize: extract
each hit's `_source` in hit order and wrap all of them in a single `Logs`
batch with the constant provider name and the derived metric fingerprint;
the returned count is the length of the decoded response. A translation
error or panic is returned before the network is consulted. -/
def ElasticSearchDsProvider.Query (e : ElasticSearchDsProvider)
    (options : LogQueryOptions) (net : Except String (List EsHit)) :
    Outcome (List Logs × Nat) :=
  match esTranslate options with
  | .err m => .err m
  | .panics m => .panics m
  | .ok _query =>
    match net with
    | .error m => .err m
    | .ok hits =>
      .ok ([⟨ElasticSearchDsProviderName,
        commonKeyValuePairs (hits.map (fun ht => ht.source)),
        hits.map (fun ht => ht.source)⟩],
        (hits.map (fun ht => ht.source)).length)

/-- Standard base64 alphabet. -/
def base64Table : String :=
  "ABCDEFGHIJKLMNOPQRSTUVWXYZabcdefghijklmnopqrstuvwxyz0123456789+/"

/-- Character `n` (0 ≤ n < 64) of the base64 alphabet. -/
def b64Char (n : Nat) : Char := base64Table.toList.getD n 'A'

/-- UTF-8 bytes of one character (as the Go string holds them). -/
def utf8Bytes (c : Char) : List Nat :=
  let n := c.toNat
  if n < 128 then [n]
  else if n < 2048 then [192 + n / 64, 128 + n % 64]
  else if n < 65536 then
    [224 + n / 4096, 128 + (n / 64) % 64, 128 + n % 64]
  else
    [240 + n / 262144, 128 + (n / 4096) % 64, 128 + (n / 64) % 64, 128 + n % 64]

/-- The byte sequence of a string (UTF-8, as Go's `[]byte(s)`). -/
def strBytes (s : String) : List Nat :=
  s.toList.foldr (fun c acc => utf8Bytes c ++ acc) []

/-- Standard base64 encoding of a byte list (three bytes per four output
characters, `=` padding), as `base64.StdEncoding.EncodeToString`. -/
def base64Chunks : List Nat → String
  | b1 :: b2 :: b3 :: rest =>
    let n := b1 * 65536 + b2 * 256 + b3
    String.mk [b64Char (n / 262144 % 64), b64Char (n / 4096 % 64),
      b64Char (n / 64 % 64), b64Char (n % 64)] ++ base64Chunks rest
  | [b1, b2] =>
    let n := b1 * 256 + b2
    String.mk [b64Char (n / 1024), b64Char (n / 16 % 64), b64Char (n % 16 * 4)] ++ "="
  | [b1] =>
    String.mk [b64Char (b1 / 4), b64Char (b1 % 4 * 16)] ++ "=="
  | [] => ""

/-- `base64.StdEncoding.EncodeToString([]byte(s))`. -/
def base64Encode (s : String) : String := base64Chunks (strBytes s)

/-- An HTTP response as `Check` inspects it. -/
structure HttpResponse where
  StatusCode : Int
deriving Repr, DecidableEq

/-- The outbound request `Check` hands to `tools.Get`: header map, URL and
timeout in seconds. -/
structure HttpRequest where
  header : List (String × String)
  url : String
  timeout : Nat
deriving Repr, DecidableEq

/-- The request-construction phase of `Check`: the fixed `/_cat/health`
endpoint with a 10-second timeout; when the username is non-empty, a basic
authorization header computed from the current credentials (the source
recomputes it inside `Check` on every call; nothing is cached on the
receiver). -/
def checkRequest (e : ElasticSearchDsProvider) : HttpRequest :=
  let url := e.url ++ "/_cat/health"
  if e.username ≠ "" then
    { header := [("Authorization",
        "Basic " ++ base64Encode (e.username ++ ":" ++ e.password))],
      url := e.url ++ "/_cat/health", timeout := 10 }
  else { header := [], url := url, timeout := 10 }

/-- `Check`: issue the probe (transport abstracted by `transport`); a
transport failure is returned as `(false, err)`; a response with status
other than 200 is returned as `(false, error carrying the code)`; status
200 returns `(true, nil)`. -/
def ElasticSearchDsProvider.Check (e : ElasticSearchDsProvider)
    (transport : Except String HttpResponse) : Bool × Option String :=
  match transport with
  | .error m => (false, some m)
  | .ok res =>
    if res.StatusCode ≠ 200 then
      (false, some ("状态码非200, 当前: " ++ toString res.StatusCode))
    else (true, none)

/-- The clause a valid wildcard mode produces for one filter (the two
non-error arms of `buildFilterQuery`). -/
def esFilterClause (wildcard : Int) (f : QueryFilterItem) : EsQuery :=
  if wildcard = 0 then .matchQuery f.Field f.Value
  else .wildcardQuery f.Field ("*" ++ f.Value ++ "*")

theorem buildFilterQuery_valid (w : Int) (f : QueryFilterItem)
    (hw : w = 0 ∨ w = 1) : buildFilterQuery w f = .ok (esFilterClause w f) := by
  rcases hw with rfl | rfl <;> rfl

theorem buildSubQueries_valid (w : Int) (hw : w = 0 ∨ w = 1)
    (fs : List QueryFilterItem) :
    buildSubQueries w fs = .ok (fs.map (esFilterClause w)) := by
  induction fs with
  | nil => rfl
  | cons f rest ih =>
    simp only [buildSubQueries, buildFilterQuery_valid w f hw, ih, List.map]

theorem buildFilterQuery_leaf (w : Int) (f : QueryFilterItem) (q : EsQuery)
    (h : buildFilterQuery w f = .ok q) : q.isLeafFilter = true := by
  unfold buildFilterQuery at h
  split at h
  · cases h; rfl
  · split at h
    · cases h; rfl
    · cases h

theorem buildFilterQuery_not_fault (w : Int) (f : QueryFilterItem) :
    (buildFilterQuery w f).isFault = false := by
  unfold buildFilterQuery
  split
  · rfl
  · split <;> rfl

theorem buildSubQueries_leaves (w : Int) (fs : List QueryFilterItem)
    (subs : List EsQuery) (h : buildSubQueries w fs = .ok subs) :
    ∀ x ∈ subs, x.isLeafFilter = true := by
  induction fs generalizing subs with
  | nil =>
    unfold buildSubQueries at h
    cases h
    intro x hx
    cases hx
  | cons f rest ih =>
    unfold buildSubQueries at h
    cases hbf : buildFilterQuery w f with
    | ok q =>
      rw [hbf] at h
      cases hbs : buildSubQueries w rest with
      | ok qs =>
        rw [hbs] at h
        cases h
        intro x hx
        cases hx with
        | head => exact buildFilterQuery_leaf w f q hbf
        | tail _ hmem => exact ih qs hbs x hmem
      | err m => rw [hbs] at h; cases h
      | panics m => rw [hbs] at h; cases h
    | err m => rw [hbf] at h; cases h
    | panics m => rw [hbf] at h; cases h

theorem buildSubQueries_not_fault (w : Int) (fs : List QueryFilterItem) :
    (buildSubQueries w fs).isFault = false := by
  induction fs with
  | nil => rfl
  | cons f rest ih =>
    unfold buildSubQueries
    split
    · split
      · rfl
      · rfl
      · rename_i heq
        rw [heq] at ih
        simp [Outcome.isFault] at ih
    · rfl
    · rename_i heq
      have hnf := buildFilterQuery_not_fault w f
      rw [heq] at hnf
      simp [Outcome.isFault] at hnf

theorem esFieldGroup_not_fault (es : ElasticSearchOptions) :
    (esFieldGroup es).isFault = false := by
  unfold esFieldGroup
  split
  · split
    · rfl
    · rename_i heq
      have hnf := buildSubQueries_not_fault es.QueryWildcard es.QueryFilter
      rw [heq] at hnf
      simp [Outcome.isFault] at hnf
    · split
      · rfl
      · split
        · rfl
        · split <;> rfl
  · rfl

theorem esFieldGroup_valid (es : ElasticSearchOptions)
    (hne : es.QueryFilter ≠ [])
    (hw : es.QueryWildcard = 0 ∨ es.QueryWildcard = 1) :
    esFieldGroup es =
      (if es.QueryFilterCondition = EsFilterConditionOr then
        .ok ([], es.QueryFilter.map (esFilterClause es.QueryWildcard), [], some 1)
      else if es.QueryFilterCondition = EsFilterConditionAnd then
        .ok (es.QueryFilter.map (esFilterClause es.QueryWildcard), [], [], none)
      else if es.QueryFilterCondition = EsFilterConditionNot then
        .ok ([], [], es.QueryFilter.map (esFilterClause es.QueryWildcard), none)
      else .err "undefined QueryFilterCondition") := by
  unfold esFieldGroup
  rw [if_pos (List.length_pos.mpr hne),
    buildSubQueries_valid es.QueryWildcard hw es.QueryFilter]

theorem esTranslate_field_ok (options : LogQueryOptions) (sa ea : String)
    (must should mustNot : List EsQuery) (mm : Option Nat)
    (hqt : options.ElasticSearch.QueryType = EsQueryTypeField)
    (hsa : options.StartAt = .str sa) (hea : options.EndAt = .str ea)
    (hg : esFieldGroup options.ElasticSearch = .ok (must, should, mustNot, mm)) :
    esTranslate options =
      .ok (.boolq (must ++ [.rangeQuery "@timestamp" sa ea]) should mustNot mm) := by
  unfold esTranslate
  rw [hqt, hg, hsa, hea]
  rfl

theorem esTranslate_field_err (options : LogQueryOptions) (m : String)
    (hqt : options.ElasticSearch.QueryType = EsQueryTypeField)
    (hg : esFieldGroup options.ElasticSearch = .err m) :
    esTranslate options = .err m := by
  unfold esTranslate
  rw [hqt, hg]
  rfl

theorem esTranslate_not_fault (options : LogQueryOptions) (sa ea : String)
    (hsa : options.StartAt = .str sa) (hea : options.EndAt = .str ea) :
    (esTranslate options).isFault = false := by
  unfold esTranslate
  split
  · split <;> rfl
  · split
    · split
      · rfl
      · rename_i heq
        have hnf := esFieldGroup_not_fault options.ElasticSearch
        rw [heq] at hnf
        simp [Outcome.isFault] at hnf
      · rw [hsa, hea]
        rfl
    · rfl

theorem buildSubQueries_invalid (w : Int) (f : QueryFilterItem)
    (rest : List QueryFilterItem) (hw0 : w ≠ 0) (hw1 : w ≠ 1) :
    buildSubQueries w (f :: rest) = .err "undefined QueryWildcard" := by
  unfold buildSubQueries buildFilterQuery
  rw [if_neg hw0, if_neg hw1]

theorem esFieldGroup_group_shape (es : ElasticSearchOptions)
    (must should mustNot : List EsQuery) (mm : Option Nat)
    (hg : esFieldGroup es = .ok (must, should, mustNot, mm)) :
    (∀ x ∈ should, x.isLeafFilter = true) ∧
    (∀ x ∈ mustNot, x.isLeafFilter = true) ∧
    (es.QueryFilter = [] →
      must = [] ∧ should = [] ∧ mustNot = [] ∧ mm = none) := by
  unfold esFieldGroup at hg
  split at hg
  · rename_i hpos
    split at hg
    · cases hg
    · cases hg
    · rename_i subs hbs
      have hleaves := buildSubQueries_leaves es.QueryWildcard es.QueryFilter subs hbs
      have hne : es.QueryFilter ≠ [] := by
        intro h0
        rw [h0] at hpos
        simp at hpos
      split at hg
      · injection hg with h
        simp only [Prod.mk.injEq] at h
        obtain ⟨rfl, rfl, rfl, rfl⟩ := h
        exact ⟨hleaves, by simp, fun h0 => absurd h0 hne⟩
      · split at hg
        · injection hg with h
          simp only [Prod.mk.injEq] at h
          obtain ⟨rfl, rfl, rfl, rfl⟩ := h
          exact ⟨by simp, by simp, fun h0 => absurd h0 hne⟩
        · split at hg
          · injection hg with h
            simp only [Prod.mk.injEq] at h
            obtain ⟨rfl, rfl, rfl, rfl⟩ := h
            exact ⟨by simp, hleaves, fun h0 => absurd h0 hne⟩
          · cases hg
  · injection hg with h
    simp only [Prod.mk.injEq] at h
    obtain ⟨rfl, rfl, rfl, rfl⟩ := h
    exact ⟨by simp, by simp, fun _ => ⟨rfl, rfl, rfl, rfl⟩⟩

/-- A sample adapter instance used by concrete witnesses. -/
def sampleProvider : ElasticSearchDsProvider :=
  ⟨"http://es:9200", "user", "pass", []⟩

/-- C10: in a FieldFilter-mode query, wildcard mode Substring (1) builds a
pattern clause whose pattern is the filter value wrapped with leading and
trailing wildcard markers, while Exact (0) builds an exact-match clause on
(Field, Value) with no wildcard markers added. -/
theorem buildFilterQuery_wildcard_modes (f : QueryFilterItem) :
    buildFilterQuery 1 f = .ok (.wildcardQuery f.Field ("*" ++ f.Value ++ "*")) ∧
    buildFilterQuery 0 f = .ok (.matchQuery f.Field f.Value) :=
  ⟨rfl, rfl⟩

/-- C8: in RawPayload mode, an empty payload fails with the empty-payload
validation error before any network call (the result is the same error for
every backend behaviour `net`), and a non-empty payload is wrapped
unmodified as the backend raw-string query with no further validation. -/
theorem rawJson_mode_semantics (e : ElasticSearchDsProvider)
    (options : LogQueryOptions) (net : Except String (List EsHit))
    (hqt : options.ElasticSearch.QueryType = EsQueryTypeRawJson) :
    (options.ElasticSearch.RawJson = "" →
      ElasticSearchDsProvider.Query e options net = .err "RawJson 为空") ∧
    (options.ElasticSearch.RawJson ≠ "" →
      esTranslate options = .ok (.rawStringQuery options.ElasticSearch.RawJson)) := by
  constructor
  · intro h0
    have htr : esTranslate options = .err "RawJson 为空" := by
      unfold esTranslate
      rw [hqt, if_pos rfl, if_pos h0]
    unfold ElasticSearchDsProvider.Query
    rw [htr]
  · intro h0
    unfold esTranslate
    rw [hqt, if_pos rfl, if_neg h0]

/-- C8 witness: the concrete empty-payload raw query fails with the
empty-payload error. -/
theorem rawJson_mode_semantics_witness :
    ElasticSearchDsProvider.Query sampleProvider
      ⟨⟨EsQueryTypeRawJson, "", [], 0, EsFilterConditionAnd, "idx"⟩,
        .str "2024-01-01", .str "2024-01-02"⟩ (.ok []) = .err "RawJson 为空" :=
  (rawJson_mode_semantics sampleProvider
    ⟨⟨EsQueryTypeRawJson, "", [], 0, EsFilterConditionAnd, "idx"⟩,
      .str "2024-01-01", .str "2024-01-02"⟩ (.ok []) rfl).1 rfl

/-- C9: a QueryType outside the two enumerated values makes Query fail,
for every backend behaviour, with the undefined-query-type error whose
message includes the offending value. -/
theorem undefined_query_type_error (e : ElasticSearchDsProvider)
    (options : LogQueryOptions) (net : Except String (List EsHit))
    (h1 : options.ElasticSearch.QueryType ≠ EsQueryTypeRawJson)
    (h2 : options.ElasticSearch.QueryType ≠ EsQueryTypeField) :
    ElasticSearchDsProvider.Query e options net =
      .err ("undefined QueryType, type: " ++ options.ElasticSearch.QueryType) := by
  have htr : esTranslate options =
      .err ("undefined QueryType, type: " ++ options.ElasticSearch.QueryType) := by
    unfold esTranslate
    rw [if_neg h1, if_neg h2]
  unfold ElasticSearchDsProvider.Query
  rw [htr]

/-- C9 witness: a concrete bogus query type yields the error naming it. -/
theorem undefined_query_type_error_witness :
    ElasticSearchDsProvider.Query sampleProvider
      ⟨⟨"bogus", "", [], 0, EsFilterConditionAnd, "idx"⟩, .str "a", .str "b"⟩
      (.ok []) = .err "undefined QueryType, type: bogus" :=
  undefined_query_type_error sampleProvider
    ⟨⟨"bogus", "", [], 0, EsFilterConditionAnd, "idx"⟩, .str "a", .str "b"⟩
    (.ok []) (by decide) (by decide)

/-- C6: Check succeeds iff the observed status is exactly 200; any other
status yields failure with an error carrying the observed status code; a
transport failure is returned as an error with ok = false. -/
theorem Check_status_semantics (e : ElasticSearchDsProvider)
    (res : HttpResponse) (m : String) :
    (ElasticSearchDsProvider.Check e (.ok res) = (true, none) ↔
      res.StatusCode = 200) ∧
    (res.StatusCode ≠ 200 → ElasticSearchDsProvider.Check e (.ok res) =
      (false, some ("状态码非200, 当前: " ++ toString res.StatusCode))) ∧
    ElasticSearchDsProvider.Check e (.error m) = (false, some m) := by
  unfold ElasticSearchDsProvider.Check
  refine ⟨?_, ?_, rfl⟩
  · by_cases h : res.StatusCode = 200
    · simp [h]
    · simp [h]
  · intro h
    simp [h]

/-- C6 witness: a concrete 401 response is returned as a failure carrying
the code 401. -/
theorem Check_status_semantics_witness :
    ElasticSearchDsProvider.Check sampleProvider (.ok ⟨401⟩) =
      (false, some ("状态码非200, 当前: " ++ toString (401 : Int))) :=
  (Check_status_semantics sampleProvider ⟨401⟩ "refused").2.1 (by decide)

/-- C7: the probe request always targets the fixed `/_cat/health` endpoint
of the configured URL with a fixed 10-second timeout, and when the data
source has non-empty credentials it carries the basic-authentication header
`Basic base64(username:password)` computed from the credentials themselves
(the embedding, like the source, recomputes it inside every call — nothing
is cached on the adapter). -/
theorem Check_request_construction (e : ElasticSearchDsProvider) :
    (checkRequest e).timeout = 10 ∧
    (checkRequest e).url = e.url ++ "/_cat/health" ∧
    (e.username ≠ "" → (checkRequest e).header =
      [("Authorization",
        "Basic " ++ base64Encode (e.username ++ ":" ++ e.password))]) := by
  unfold checkRequest
  by_cases h : e.username = ""
  · simp [h]
  · simp [h]

/-- C7 witness: for concrete credentials user/pass the header is the
base64-encoded basic-auth header (and evaluates to the expected text). -/
theorem Check_request_construction_witness :
    (checkRequest sampleProvider).header =
      [("Authorization",
        "Basic " ++ base64Encode ("user" ++ ":" ++ "pass"))] ∧
    base64Encode ("user" ++ ":" ++ "pass") = "dXNlcjpwYXNz" :=
  ⟨(Check_request_construction sampleProvider).2.2 (by decide), by rfl⟩

/-- C1: for a FieldFilter query with non-empty FieldFilters whose per-filter
clauses build successfully (valid wildcard mode) and string time bounds,
combinator Or yields a disjunction of the filter clauses (should list, in
FieldFilters order) with minimum-should-match 1, And yields a conjunction
(all clauses on the must list), Not yields a negated conjunction (all
clauses on the must-not list), and any other FilterCondition makes Query
fail with the undefined-filter-condition error. -/
theorem esTranslate_combinator_semantics (e : ElasticSearchDsProvider)
    (options : LogQueryOptions) (net : Except String (List EsHit))
    (sa ea : String)
    (hqt : options.ElasticSearch.QueryType = EsQueryTypeField)
    (hne : options.ElasticSearch.QueryFilter ≠ [])
    (hw : options.ElasticSearch.QueryWildcard = 0 ∨
      options.ElasticSearch.QueryWildcard = 1)
    (hsa : options.StartAt = .str sa) (hea : options.EndAt = .str ea) :
    (options.ElasticSearch.QueryFilterCondition = EsFilterConditionOr →
      esTranslate options = .ok (.boolq [.rangeQuery "@timestamp" sa ea]
        (options.ElasticSearch.QueryFilter.map
          (esFilterClause options.ElasticSearch.QueryWildcard)) [] (some 1))) ∧
    (options.ElasticSearch.QueryFilterCondition = EsFilterConditionAnd →
      esTranslate options = .ok (.boolq
        (options.ElasticSearch.QueryFilter.map
          (esFilterClause options.ElasticSearch.QueryWildcard) ++
          [.rangeQuery "@timestamp" sa ea]) [] [] none)) ∧
    (options.ElasticSearch.QueryFilterCondition = EsFilterConditionNot →
      esTranslate options = .ok (.boolq [.rangeQuery "@timestamp" sa ea] []
        (options.ElasticSearch.QueryFilter.map
          (esFilterClause options.ElasticSearch.QueryWildcard)) none)) ∧
    (options.ElasticSearch.QueryFilterCondition ≠ EsFilterConditionOr →
      options.ElasticSearch.QueryFilterCondition ≠ EsFilterConditionAnd →
      options.ElasticSearch.QueryFilterCondition ≠ EsFilterConditionNot →
      ElasticSearchDsProvider.Query e options net =
        .err "undefined QueryFilterCondition") := by
  refine ⟨fun hc => ?_, fun hc => ?_, fun hc => ?_, fun h1 h2 h3 => ?_⟩
  · have hg : esFieldGroup options.ElasticSearch =
        .ok ([], options.ElasticSearch.QueryFilter.map
          (esFilterClause options.ElasticSearch.QueryWildcard), [], some 1) := by
      rw [esFieldGroup_valid options.ElasticSearch hne hw, hc, if_pos rfl]
    have hok := esTranslate_field_ok options sa ea _ _ _ _ hqt hsa hea hg
    simpa using hok
  · have hg : esFieldGroup options.ElasticSearch =
        .ok (options.ElasticSearch.QueryFilter.map
          (esFilterClause options.ElasticSearch.QueryWildcard), [], [], none) := by
      rw [esFieldGroup_valid options.ElasticSearch hne hw, hc,
        if_neg (by decide), if_pos rfl]
    exact esTranslate_field_ok options sa ea _ _ _ _ hqt hsa hea hg
  · have hg : esFieldGroup options.ElasticSearch =
        .ok ([], [], options.ElasticSearch.QueryFilter.map
          (esFilterClause options.ElasticSearch.QueryWildcard), none) := by
      rw [esFieldGroup_valid options.ElasticSearch hne hw, hc,
        if_neg (by decide), if_neg (by decide), if_pos rfl]
    have hok := esTranslate_field_ok options sa ea _ _ _ _ hqt hsa hea hg
    simpa using hok
  · have hg : esFieldGroup options.ElasticSearch =
        .err "undefined QueryFilterCondition" := by
      rw [esFieldGroup_valid options.ElasticSearch hne hw,
        if_neg h1, if_neg h2, if_neg h3]
    have htr := esTranslate_field_err options _ hqt hg
    unfold ElasticSearchDsProvider.Query
    rw [htr]

/-- A concrete Or-combinator query over two filters, used as C1 witness. -/
def c1Options : LogQueryOptions :=
  ⟨⟨EsQueryTypeField, "", [⟨"service", "api"⟩, ⟨"service", "web"⟩], 0,
    EsFilterConditionOr, "idx"⟩, .str "2024-01-01", .str "2024-01-02"⟩

/-- C1 witness: the two service filters under Or translate to a should
group of the two exact-match clauses in filter order with
minimum-should-match 1, plus the mandatory time range on the must list. -/
theorem esTranslate_combinator_semantics_witness :
    esTranslate c1Options = .ok (.boolq
      [.rangeQuery "@timestamp" "2024-01-01" "2024-01-02"]
      [.matchQuery "service" "api", .matchQuery "service" "web"]
      [] (some 1)) :=
  (esTranslate_combinator_semantics sampleProvider c1Options (.ok [])
    "2024-01-01" "2024-01-02" rfl (by decide) (Or.inl rfl) rfl rfl).1 rfl

/-- C2: every successfully translated FieldFilter query with string bounds
is a bool query whose must list ends with the appended `@timestamp` range
clause (timestamp ≥ StartAt and ≤ EndAt) — an AND constraint outside the
Or/And/Not group (the range clause is never in the should or must-not
lists) — and with empty FieldFilters the combinator step is skipped and the
time range is the only constraint. -/
theorem esTranslate_time_range_conjoined (options : LogQueryOptions)
    (q : EsQuery) (sa ea : String)
    (hqt : options.ElasticSearch.QueryType = EsQueryTypeField)
    (hsa : options.StartAt = .str sa) (hea : options.EndAt = .str ea)
    (htr : esTranslate options = .ok q) :
    ∃ pre should mustNot mm,
      q = .boolq (pre ++ [.rangeQuery "@timestamp" sa ea]) should mustNot mm ∧
      EsQuery.rangeQuery "@timestamp" sa ea ∉ should ∧
      EsQuery.rangeQuery "@timestamp" sa ea ∉ mustNot ∧
      (options.ElasticSearch.QueryFilter = [] →
        q = .boolq [.rangeQuery "@timestamp" sa ea] [] [] none) := by
  cases hg : esFieldGroup options.ElasticSearch with
  | err m =>
    rw [esTranslate_field_err options m hqt hg] at htr
    cases htr
  | panics m =>
    have hnf := esFieldGroup_not_fault options.ElasticSearch
    rw [hg] at hnf
    simp [Outcome.isFault] at hnf
  | ok grp =>
    obtain ⟨must, should, mustNot, mm⟩ := grp
    rw [esTranslate_field_ok options sa ea must should mustNot mm
      hqt hsa hea hg] at htr
    injection htr with hq
    subst hq
    obtain ⟨hsh, hmn, hemp⟩ :=
      esFieldGroup_group_shape options.ElasticSearch must should mustNot mm hg
    refine ⟨must, should, mustNot, mm, rfl, ?_, ?_, ?_⟩
    · intro hmem
      have hx := hsh _ hmem
      simp [EsQuery.isLeafFilter] at hx
    · intro hmem
      have hx := hmn _ hmem
      simp [EsQuery.isLeafFilter] at hx
    · intro h0
      obtain ⟨rfl, rfl, rfl, rfl⟩ := hemp h0
      simp

/-- A concrete one-filter And query with string bounds, used as C2 witness. -/
def c2Options : LogQueryOptions :=
  ⟨⟨EsQueryTypeField, "", [⟨"level", "error"⟩], 0, EsFilterConditionAnd, "idx"⟩,
    .str "2024-01-01T00:00:00Z", .str "2024-01-02T00:00:00Z"⟩

/-- C2 witness: the concrete And query translates with the range clause
appended to the must list after the filter clause and absent from the
should and must-not lists. -/
theorem esTranslate_time_range_conjoined_witness :
    ∃ pre should mustNot mm,
      EsQuery.boolq [.matchQuery "level" "error", .rangeQuery "@timestamp"
          "2024-01-01T00:00:00Z" "2024-01-02T00:00:00Z"] [] [] none =
        .boolq (pre ++ [.rangeQuery "@timestamp"
          "2024-01-01T00:00:00Z" "2024-01-02T00:00:00Z"]) should mustNot mm ∧
      EsQuery.rangeQuery "@timestamp"
        "2024-01-01T00:00:00Z" "2024-01-02T00:00:00Z" ∉ should ∧
      EsQuery.rangeQuery "@timestamp"
        "2024-01-01T00:00:00Z" "2024-01-02T00:00:00Z" ∉ mustNot ∧
      (c2Options.ElasticSearch.QueryFilter = [] →
        EsQuery.boolq [.matchQuery "level" "error", .rangeQuery "@timestamp"
            "2024-01-01T00:00:00Z" "2024-01-02T00:00:00Z"] [] [] none =
          .boolq [.rangeQuery "@timestamp"
            "2024-01-01T00:00:00Z" "2024-01-02T00:00:00Z"] [] [] none) :=
  esTranslate_time_range_conjoined c2Options
    (.boolq [.matchQuery "level" "error", .rangeQuery "@timestamp"
      "2024-01-01T00:00:00Z" "2024-01-02T00:00:00Z"] [] [] none)
    "2024-01-01T00:00:00Z" "2024-01-02T00:00:00Z" rfl rfl rfl (by rfl)

/-- A FieldFilter query with empty FieldFilters and undefined wildcard
mode 2, used as the C3 counterexample. -/
def c3Options : LogQueryOptions :=
  ⟨⟨EsQueryTypeField, "", [], 2, EsFilterConditionAnd, "idx"⟩,
    .str "2024-01-01", .str "2024-01-02"⟩

/-- C3 counterexample: a FieldFilter query carrying the undefined
WildcardMode 2 does NOT fail validation when FieldFilters is empty — the
wildcard and combinator enums are only inspected inside the non-empty
branch, so Query proceeds to the backend and succeeds. -/
theorem fieldFilter_validation_skipped_cx :
    ElasticSearchDsProvider.Query sampleProvider c3Options (.ok []) =
      .ok ([⟨ElasticSearchDsProviderName, [], []⟩], 0) := by rfl

/-- C3 (amended): for a FieldFilter query with NON-EMPTY FieldFilters, an
undefined WildcardMode makes Query fail before any network call (same
error for every backend behaviour) with the fixed message
"undefined QueryWildcard" — the message does not name the offending
value — and, when the wildcard mode is valid, an undefined FilterCondition
fails likewise with "undefined QueryFilterCondition"; with empty
FieldFilters these validations are skipped. -/
theorem fieldFilter_enum_validation_amended (e : ElasticSearchDsProvider)
    (options : LogQueryOptions) (net : Except String (List EsHit))
    (hqt : options.ElasticSearch.QueryType = EsQueryTypeField)
    (hne : options.ElasticSearch.QueryFilter ≠ []) :
    (options.ElasticSearch.QueryWildcard ≠ 0 →
      options.ElasticSearch.QueryWildcard ≠ 1 →
      ElasticSearchDsProvider.Query e options net =
        .err "undefined QueryWildcard") ∧
    ((options.ElasticSearch.QueryWildcard = 0 ∨
        options.ElasticSearch.QueryWildcard = 1) →
      options.ElasticSearch.QueryFilterCondition ≠ EsFilterConditionOr →
      options.ElasticSearch.QueryFilterCondition ≠ EsFilterConditionAnd →
      options.ElasticSearch.QueryFilterCondition ≠ EsFilterConditionNot →
      ElasticSearchDsProvider.Query e options net =
        .err "undefined QueryFilterCondition") := by
  constructor
  · intro hw0 hw1
    obtain ⟨f, rest, hfr⟩ := List.exists_cons_of_ne_nil hne
    have hbs : buildSubQueries options.ElasticSearch.QueryWildcard
        options.ElasticSearch.QueryFilter = .err "undefined QueryWildcard" := by
      rw [hfr]
      exact buildSubQueries_invalid _ f rest hw0 hw1
    have hg : esFieldGroup options.ElasticSearch =
        .err "undefined QueryWildcard" := by
      unfold esFieldGroup
      rw [if_pos (List.length_pos.mpr hne), hbs]
    have htr := esTranslate_field_err options _ hqt hg
    unfold ElasticSearchDsProvider.Query
    rw [htr]
  · intro hw h1 h2 h3
    have hg : esFieldGroup options.ElasticSearch =
        .err "undefined QueryFilterCondition" := by
      rw [esFieldGroup_valid options.ElasticSearch hne hw,
        if_neg h1, if_neg h2, if_neg h3]
    have htr := esTranslate_field_err options _ hqt hg
    unfold ElasticSearchDsProvider.Query
    rw [htr]

/-- C3 witness: with one filter present, wildcard mode 2 fails before the
network call with the fixed undefined-wildcard-mode message. -/
theorem fieldFilter_enum_validation_amended_witness :
    ElasticSearchDsProvider.Query sampleProvider
      ⟨⟨EsQueryTypeField, "", [⟨"level", "error"⟩], 2,
        EsFilterConditionAnd, "idx"⟩, .str "a", .str "b"⟩ (.ok []) =
      .err "undefined QueryWildcard" :=
  (fieldFilter_enum_validation_amended sampleProvider
    ⟨⟨EsQueryTypeField, "", [⟨"level", "error"⟩], 2,
      EsFilterConditionAnd, "idx"⟩, .str "a", .str "b"⟩ (.ok [])
    rfl (by decide)).1 (by decide) (by decide)

/-- A FieldFilter query whose StartAt is a non-string value, used as the C4
counterexample. -/
def c4Options : LogQueryOptions :=
  ⟨⟨EsQueryTypeField, "", [⟨"level", "error"⟩], 0,
    EsFilterConditionAnd, "idx"⟩, .other, .str "2024-01-02"⟩

/-- C4 counterexample: a FieldFilter query whose StartAt holds a non-string
value makes Query fault at the `options.StartAt.(string)` type assertion
instead of returning an error. -/
theorem Query_fault_on_nonstring_bound_cx :
    ElasticSearchDsProvider.Query sampleProvider c4Options (.ok []) =
      .panics "interface conversion: StartAt is not a string" := by rfl

/-- C4 (amended): for queries whose StartAt and EndAt hold strings, Query
never faults — every failure is surfaced as a returned error — and Check
surfaces every failure as a returned error value with ok = false (success
carries no error, failure always carries one; none is swallowed). -/
theorem Query_Check_errors_returned (e : ElasticSearchDsProvider)
    (options : LogQueryOptions) (net : Except String (List EsHit))
    (transport : Except String HttpResponse) (sa ea : String)
    (hsa : options.StartAt = .str sa) (hea : options.EndAt = .str ea) :
    (ElasticSearchDsProvider.Query e options net).isFault = false ∧
    (ElasticSearchDsProvider.Check e transport = (true, none) ∨
      ∃ m, ElasticSearchDsProvider.Check e transport = (false, some m)) := by
  constructor
  · unfold ElasticSearchDsProvider.Query
    split
    · rfl
    · rename_i m heq
      have hnf := esTranslate_not_fault options sa ea hsa hea
      rw [heq] at hnf
      simp [Outcome.isFault] at hnf
    · cases net with
      | error m => rfl
      | ok hits => rfl
  · unfold ElasticSearchDsProvider.Check
    cases transport with
    | error m => exact Or.inr ⟨m, rfl⟩
    | ok res =>
      by_cases h : res.StatusCode = 200
      · exact Or.inl (by simp [h])
      · exact Or.inr ⟨"状态码非200, 当前: " ++ toString res.StatusCode, by simp [h]⟩

/-- C4 witness: a concrete string-bounded query does not fault, and a
concrete healthy probe carries no error. -/
theorem Query_Check_errors_returned_witness :
    (ElasticSearchDsProvider.Query sampleProvider
      ⟨⟨EsQueryTypeField, "", [], 0, EsFilterConditionAnd, "idx"⟩,
        .str "a", .str "b"⟩ (.ok [])).isFault = false ∧
    (ElasticSearchDsProvider.Check sampleProvider (.ok ⟨200⟩) = (true, none) ∨
      ∃ m, ElasticSearchDsProvider.Check sampleProvider (.ok ⟨200⟩) =
        (false, some m)) :=
  Query_Check_errors_returned sampleProvider
    ⟨⟨EsQueryTypeField, "", [], 0, EsFilterConditionAnd, "idx"⟩,
      .str "a", .str "b"⟩ (.ok []) (.ok ⟨200⟩) "a" "b" rfl rfl

/-- C5: every successful Query call returns exactly one Logs batch — also
on zero hits — whose ProviderName is the constant backend identifier,
whose Message is the full sequence of the per-hit source documents in hit
order with none dropped or reordered, and the returned count equals the
length of Message. -/
theorem Query_single_batch (e : ElasticSearchDsProvider)
    (options : LogQueryOptions) (net : Except String (List EsHit))
    (data : List Logs) (count : Nat)
    (h : ElasticSearchDsProvider.Query e options net = .ok (data, count)) :
    ∃ hits, net = .ok hits ∧
      data = [⟨ElasticSearchDsProviderName,
        commonKeyValuePairs (hits.map (fun ht => ht.source)),
        hits.map (fun ht => ht.source)⟩] ∧
      data.length = 1 ∧
      ∀ l ∈ data, l.ProviderName = ElasticSearchDsProviderName ∧
        l.Message = hits.map (fun ht => ht.source) ∧
        count = l.Message.length := by
  unfold ElasticSearchDsProvider.Query at h
  split at h
  · cases h
  · cases h
  · split at h
    · cases h
    · rename_i hits
      injection h with hpair
      simp only [Prod.mk.injEq] at hpair
      obtain ⟨rfl, rfl⟩ := hpair
      refine ⟨hits, rfl, rfl, rfl, ?_⟩
      intro l hl
      rw [List.mem_singleton] at hl
      subst hl
      exact ⟨rfl, rfl, rfl⟩

/-- A non-empty raw-payload query and two backend hits, used as C5 witness. -/
def c5Options : LogQueryOptions :=
  ⟨⟨EsQueryTypeRawJson, "match_all", [], 0, EsFilterConditionAnd, "idx"⟩,
    .str "a", .str "b"⟩

/-- Two concrete backend hits for the C5 witness. -/
def c5Hits : List EsHit := [⟨"1", [("k", "v")]⟩, ⟨"2", []⟩]

/-- C5 witness: a concrete two-hit response yields one batch with both
source documents in order and count 2. -/
theorem Query_single_batch_witness :
    ∃ hits, (Except.ok c5Hits : Except String (List EsHit)) = .ok hits ∧
      [(⟨ElasticSearchDsProviderName, [], [[("k", "v")], []]⟩ : Logs)] =
        [⟨ElasticSearchDsProviderName,
          commonKeyValuePairs (hits.map (fun ht => ht.source)),
          hits.map (fun ht => ht.source)⟩] ∧
      [(⟨ElasticSearchDsProviderName, [], [[("k", "v")], []]⟩ : Logs)].length = 1 ∧
      ∀ l ∈ [(⟨ElasticSearchDsProviderName, [], [[("k", "v")], []]⟩ : Logs)],
        l.ProviderName = ElasticSearchDsProviderName ∧
        l.Message = hits.map (fun ht => ht.source) ∧
        2 = l.Message.length :=
  Query_single_batch sampleProvider c5Options (.ok c5Hits)
    [⟨ElasticSearchDsProviderName, [], [[("k", "v")], []]⟩] 2 (by rfl)
